import Mathlib

/-!
Shallow embedding of `src/kinesis/base.py` (class `Base`): the connection
state machine (`get_conn`, `_get_reconn_helper`, `start`, `_create_stream`)
and the shard synchronization machinery (`sync_shards`,
`set_shard_sync_state`).  Stateful Python methods become explicit
state-passing functions; the outcomes of external calls (the AWS client,
`asyncio.sleep`, `time.monotonic`) are supplied as environment parameters.
Monotonic-clock readings are rationals; sleep durations are naturals.
-/

namespace Kinesis

/-- A shard descriptor as returned by the stream service.  `base.py` treats
shard entries opaquely (it only measures the length of the list and passes
the list through to handlers), so a shard is modelled by its identifier. -/
abbrev Shard := String

/-- Modelled from the spec: the exception classes of the `exceptions`
module, which is not under `src/` (only `base.py` is).  Per the spec error
taxonomy and external-interface section, `StreamDoesNotExist`,
`StreamExists`, `StreamShardLimit` and `StreamStatusInvalid` are distinct
exception classes, none a subclass of another; `minShardCount` is the bare
`Exception("Min shard count is one")` raised by `_create_stream`;
`connectionError` is the built-in `ConnectionError` raised when the retry
limit is exhausted; `clientError` is an unmapped botocore `ClientError`;
`otherFailure` stands for any other exception (network errors etc.). -/
inductive KError where
  | streamDoesNotExist
  | streamExists
  | streamShardLimit
  | streamStatusInvalid (status : String)
  | minShardCount
  | connectionError
  | clientError (code : String)
  | otherFailure (msg : String)
  deriving DecidableEq, Repr

/-- The `StreamDescription` dict returned by `describe_stream`, restricted
to the two keys `base.py` reads: `StreamStatus` and `Shards`. -/
structure StreamDescription where
  streamStatus : String
  shards : List Shard
  deriving DecidableEq, Repr

/-! ### `_get_reconn_helper` (base.py lines 200-234)

The reconnect loop is embedded by structural recursion on the list of
iterations the environment provides: each element carries the
`time.monotonic()` reading taken at the top of that iteration (line 208)
and the outcome of the `await self.start()` call of that iteration (line 214).
If the loop would run past the supplied list the run is reported as
`incomplete` (the loop would keep going). -/

/-- Outcome of a (partial) run of the reconnect loop. -/
inductive ReconnOutcome where
  | ok
  | err (e : KError)
  | incomplete
  deriving DecidableEq, Repr

/-- Observable result of a reconnect-loop run: the final outcome, the
backoff delays slept (in order, one per iteration entered, line 213), the
number of `start()` calls made, and the last value written to
`self._reconnect_timeout` (line 208; `none` if no iteration was entered). -/
structure ReconnResult where
  outcome : ReconnOutcome
  sleeps : List Nat
  startCalls : Nat
  reconnectTimeout : Option ℚ
  deriving DecidableEq, Repr

/-- Lines 230-233: recompute `backoff_delay` when exponential backoff is
enabled (Python truthiness: `none` and `some 0` are falsy), capping at
`expo_backoff_limit`. -/
def reconnNewDelay (expo_backoff : Option Nat) (expo_backoff_limit : Nat)
    (conn_attempts backoff_delay : Nat) : Nat :=
  match expo_backoff with
  | some b =>
    if b ≠ 0 then
      let d := conn_attempts ^ 2 * b
      if d ≥ expo_backoff_limit then expo_backoff_limit else d
    else backoff_delay
  | none => backoff_delay

/-- One pass of the `while True:` body of `_get_reconn_helper`, from the
`except` clause onward (lines 219-234), given the failure `e` of the
`start()` call of this iteration.  Returns either the error to raise or the updated
`(conn_attempts, backoff_delay)` pair for the next iteration.
`retry_limit` is `none` when the attribute is not an `int`
(`isinstance(self.retry_limit, int)`, line 224). -/
def reconnFailStep (retry_limit : Option Int) (expo_backoff : Option Nat)
    (expo_backoff_limit : Nat) (e : KError) (conn_attempts backoff_delay : Nat) :
    Except KError (Nat × Nat) :=
  if e = KError.streamDoesNotExist then
    Except.error e
  else
    let conn_attempts := conn_attempts + 1
    match retry_limit with
    | some rl =>
      if (conn_attempts : Int) ≥ rl + 1 then
        Except.error KError.connectionError
      else
        Except.ok (conn_attempts, reconnNewDelay expo_backoff expo_backoff_limit
          conn_attempts backoff_delay)
    | none =>
      Except.ok (conn_attempts, reconnNewDelay expo_backoff expo_backoff_limit
        conn_attempts backoff_delay)

/-- The `while True:` loop of `_get_reconn_helper` (lines 207-234), by
recursion on the environment-supplied iterations.  Each iteration: write
`_reconnect_timeout` (line 208), sleep `backoff_delay` (line 213), run
`start()` (line 214); on success break, on failure run `reconnFailStep`. -/
def reconnLoop (retry_limit : Option Int) (expo_backoff : Option Nat)
    (expo_backoff_limit : Nat) :
    List (ℚ × Except KError Unit) → Nat → Nat → List Nat → Option ℚ → Nat →
    ReconnResult
  | [], _, _, sleeps, rt, calls =>
    { outcome := ReconnOutcome.incomplete, sleeps := sleeps.reverse,
      startCalls := calls, reconnectTimeout := rt }
  | (t, r) :: rest, backoff_delay, conn_attempts, sleeps, _, calls =>
    let sleeps := backoff_delay :: sleeps
    let calls := calls + 1
    match r with
    | Except.ok _ =>
      { outcome := ReconnOutcome.ok, sleeps := sleeps.reverse,
        startCalls := calls, reconnectTimeout := some t }
    | Except.error e =>
      match reconnFailStep retry_limit expo_backoff expo_backoff_limit e
          conn_attempts backoff_delay with
      | Except.error e2 =>
        { outcome := ReconnOutcome.err e2, sleeps := sleeps.reverse,
          startCalls := calls, reconnectTimeout := some t }
      | Except.ok (a2, d2) =>
        reconnLoop retry_limit expo_backoff expo_backoff_limit rest d2 a2
          sleeps (some t) calls

/-- Entry of `_get_reconn_helper` (lines 200-206): `backoff_delay = 5`,
`conn_attempts = 1`, then the loop.  (`self.stream_status = RECONNECT` and
the `close()` calls do not feed back into the quantities observed here.) -/
def reconnRun (retry_limit : Option Int) (expo_backoff : Option Nat)
    (expo_backoff_limit : Nat) (attempts : List (ℚ × Except KError Unit)) :
    ReconnResult :=
  reconnLoop retry_limit expo_backoff expo_backoff_limit attempts 5 1 [] none 0

/-! ### External calls: error-code mapping (base.py lines 107-119, 247-264)

A raw botocore `ClientError` is represented as `KError.clientError code`;
any other exception raised by the SDK call is already a `KError`. -/

/-- Embedding of `get_stream_description` (lines 107-119): passes the result through,
mapping a `ClientError` with code `ResourceNotFoundException` to
`StreamDoesNotExist` and re-raising every other error unchanged. -/
def get_stream_description_run (api : Except KError StreamDescription) :
    Except KError StreamDescription :=
  match api with
  | Except.error (KError.clientError code) =>
    if code = "ResourceNotFoundException" then Except.error KError.streamDoesNotExist
    else Except.error (KError.clientError code)
  | r => r

/-- Embedding of `_create_stream` (lines 236-264): raises the bare
`Exception("Min shard count is one")` when `create_stream_shards < 1`
(line 244-245), otherwise calls `client.create_stream` and maps its
`ClientError` codes: `ResourceInUseException` is swallowed when
`ignore_exists` (the default `True`), else `StreamExists`;
`LimitExceededException` becomes `StreamShardLimit`; everything else is
re-raised. -/
def create_stream_run (create_stream_shards : Int) (ignore_exists : Bool)
    (api : Except KError Unit) : Except KError Unit :=
  if create_stream_shards < 1 then Except.error KError.minShardCount
  else
    match api with
    | Except.error (KError.clientError code) =>
      if code = "ResourceInUseException" then
        if ignore_exists then Except.ok () else Except.error KError.streamExists
      else if code = "LimitExceededException" then
        Except.error KError.streamShardLimit
      else Except.error (KError.clientError code)
    | r => r

/-! ### `start` (base.py lines 121-165) -/

/-- The instance fields read or written by `start`. -/
structure StartState where
  create_stream : Bool
  stream_status : String
  shards_status : String
  shards : List Shard
  deriving DecidableEq, Repr

/-- Environment for one run of `start`: the outcome of the
`client.create_stream` call (used only when `self.create_stream`) and the
outcomes of the successive `describe_stream` calls of the readiness poll
loop. -/
structure StartEnv where
  createApi : Except KError Unit
  describes : List (Except KError StreamDescription)
  deriving Repr

/-- Result of a `start` run: the updated fields, the debug log lines
modelled here (only the skip-describe message, line 130-134), and the
raised error if any. -/
structure StartResult where
  state : StartState
  logs : List String
  error : Option KError
  deriving DecidableEq, Repr

/-- The readiness poll loop (lines 138-165), by recursion on the supplied
describe outcomes.  An `ACTIVE` status sets `stream_status` and
`shards_status` (lines 144-147) and then stores the fetched shard list
(line 160).  `CREATING`/`UPDATING` sleeps 250ms and polls again (lines
149-150); any other status raises `StreamStatusInvalid` (lines 152-155).
Exhausting the list models the 60s timeout expiring: the poll loop is
cancelled (caught, line 156-157) and `cm.expired` raises
`StreamStatusInvalid` with the last seen status (lines 162-165), the
instance fields untouched. -/
def startPoll (st : StartState) (lastStatus : String) :
    List (Except KError StreamDescription) → StartState × Option KError
  | [] => (st, some (KError.streamStatusInvalid lastStatus))
  | d :: rest =>
    match get_stream_description_run d with
    | Except.error e => (st, some e)
    | Except.ok info =>
      if info.streamStatus = "ACTIVE" then
        ({ st with stream_status := info.streamStatus,
                   shards_status := "INITIALIZE",
                   shards := info.shards }, none)
      else if info.streamStatus = "CREATING" ∨ info.streamStatus = "UPDATING" then
        startPoll st info.streamStatus rest
      else (st, some (KError.streamStatusInvalid info.streamStatus))

/-- The tail of `start` after stream creation (lines 129-165): emit the
skip-describe debug line when the flag is set, then run the poll loop. -/
def startDescribePhase (skip_describe_stream : Bool) (st : StartState)
    (describes : List (Except KError StreamDescription)) : StartResult :=
  let logs :=
    if skip_describe_stream then
      ["Skipping Describe stream. Assuming it exists.."]
    else []
  let p := startPoll st "None" describes
  { state := p.1, logs := logs, error := p.2 }

/-- Embedding of `start` (lines 121-165): rebuild the client handle, run
`_create_stream` when `self.create_stream` is set and clear the flag on
success (lines 125-127), then the describe phase.  A creation failure
propagates with the flag still set and no log emitted. -/
def startRun (skip_describe_stream : Bool) (create_stream_shards : Int)
    (env : StartEnv) (st : StartState) : StartResult :=
  if st.create_stream then
    match create_stream_run create_stream_shards true env.createApi with
    | Except.error e => { state := st, logs := [], error := some e }
    | Except.ok _ =>
      startDescribePhase skip_describe_stream { st with create_stream := false }
        env.describes
  else
    startDescribePhase skip_describe_stream st env.describes

/-! ### `get_conn` (base.py lines 170-198)

`get_conn` holds `self._conn_lock` for its whole body; a single call is
therefore embedded sequentially.  The outcome of the `await self.start()`
call of the `INITIALIZE` branch is supplied by the environment (the full
`start` body is embedded separately as `startRun`), as are the iterations
available to the reconnect helper when it is entered. -/

/-- Observable result of one `get_conn` call: the error it raises (if
any), whether `_get_reconn_helper` was entered, and the reconnect-loop run
when it was. -/
structure ConnResult where
  raised : Option KError
  reconnEntered : Bool
  reconn : Option ReconnResult
  deriving DecidableEq, Repr

/-- The error a reconnect-loop run lets escape, if any. -/
def reconnRaised (r : ReconnResult) : Option KError :=
  match r.outcome with
  | ReconnOutcome.err e => some e
  | _ => none

/-- Embedding of `get_conn` (lines 170-198).  In state `INITIALIZE`: run `start`; a
`StreamDoesNotExist` failure is re-raised without reconnecting (lines
182-185); any other failure delegates to `_get_reconn_helper` (lines
186-188).  In state `ACTIVE` with more than 120 seconds since
`_reconnect_timeout`: enter `_get_reconn_helper` (lines 189-198).  Every
other case falls through the `if`/`elif` and the call does nothing. -/
def get_conn_run (stream_status : String) (reconnect_timeout now : ℚ)
    (startOutcome : Except KError Unit) (retry_limit : Option Int)
    (expo_backoff : Option Nat) (expo_backoff_limit : Nat)
    (attempts : List (ℚ × Except KError Unit)) : ConnResult :=
  if stream_status = "INITIALIZE" then
    match startOutcome with
    | Except.ok _ => { raised := none, reconnEntered := false, reconn := none }
    | Except.error e =>
      if e = KError.streamDoesNotExist then
        { raised := some e, reconnEntered := false, reconn := none }
      else
        let r := reconnRun retry_limit expo_backoff expo_backoff_limit attempts
        { raised := reconnRaised r, reconnEntered := true, reconn := some r }
  else if stream_status = "ACTIVE" ∧ now - reconnect_timeout > 120 then
    let r := reconnRun retry_limit expo_backoff expo_backoff_limit attempts
    { raised := reconnRaised r, reconnEntered := true, reconn := some r }
  else
    { raised := none, reconnEntered := false, reconn := none }

/-! ### `sync_shards` / `set_shard_sync_state` (base.py lines 266-318)

The abstract subclass hooks `_spilt_shards` and `_merge_shards` are
supplied as parameters: a handler receives the fetched shard list and the
current `self.shards` and either returns the new value of `self.shards`
(subclasses may reassign it; the base implementations leave it unchanged)
or raises.  `tNow` is the `time.monotonic()` reading of the refresh check
(line 296) and `tSet` the one taken inside `set_shard_sync_state`
(line 269). -/

/-- The instance fields read or written by `sync_shards`.
`shardsLockHeld` models `self._shards_lock`. -/
structure SyncState where
  shards_status : String
  shards : List Shard
  shard_refresh_monotonic : ℚ
  shardsLockHeld : Bool
  deriving DecidableEq, Repr

/-- Handler invocations observed during a `sync_shards` run, with the
shard list each handler was given. -/
inductive SyncEvent where
  | splitCall (shards : List Shard)
  | mergeCall (shards : List Shard)
  deriving DecidableEq, Repr

/-- Result of a `sync_shards` run: final fields, handler invocations in
order, and the raised error if any. -/
structure SyncResult where
  state : SyncState
  events : List SyncEvent
  raised : Option KError
  deriving DecidableEq, Repr

/-- Embedding of `set_shard_sync_state` (lines 266-271): set `shards_status` to
`SYNCED`, record the refresh timestamp, release the shard lock. -/
def set_shard_sync_state (tSet : ℚ) (st : SyncState) : SyncState :=
  { st with shards_status := "SYNCED", shard_refresh_monotonic := tSet,
            shardsLockHeld := false }

/-- Embedding of `sync_shards` (lines 285-318).  `INITIALIZE`: fetch the description,
acquire the shard lock, invoke the split handler with the fetched list,
then `set_shard_sync_state` (lines 289-293).  `SYNCED` with the refresh
interval elapsed: fetch the description; skip the cycle while the stream
is `UPDATING`/`CREATING` (lines 300-301); otherwise acquire the lock, move
to `RESYNC` and dispatch on the shard counts (lines 303-318), calling
`set_shard_sync_state` afterwards.  A handler exception propagates before
`set_shard_sync_state` runs.  Any other state is a no-op. -/
def sync_shards_run (tNow tSet shard_refresh_timer : ℚ)
    (describe : Except KError StreamDescription)
    (splitH mergeH : List Shard → List Shard → Except KError (List Shard))
    (st : SyncState) : SyncResult :=
  if st.shards_status = "INITIALIZE" then
    match get_stream_description_run describe with
    | Except.error e => { state := st, events := [], raised := some e }
    | Except.ok info =>
      let st1 := { st with shardsLockHeld := true }
      match splitH info.shards st1.shards with
      | Except.error e =>
        { state := st1, events := [SyncEvent.splitCall info.shards],
          raised := some e }
      | Except.ok newShards =>
        { state := set_shard_sync_state tSet { st1 with shards := newShards },
          events := [SyncEvent.splitCall info.shards], raised := none }
  else if tNow - st.shard_refresh_monotonic > shard_refresh_timer ∧
      st.shards_status = "SYNCED" then
    match get_stream_description_run describe with
    | Except.error e => { state := st, events := [], raised := some e }
    | Except.ok info =>
      if info.streamStatus = "UPDATING" ∨ info.streamStatus = "CREATING" then
        { state := st, events := [], raised := none }
      else
        let st1 := { st with shardsLockHeld := true, shards_status := "RESYNC" }
        let stream_shards := info.shards
        if stream_shards.length = st1.shards.length then
          { state := set_shard_sync_state tSet st1, events := [], raised := none }
        else if stream_shards.length > st1.shards.length then
          match splitH stream_shards st1.shards with
          | Except.error e =>
            { state := st1, events := [SyncEvent.splitCall stream_shards],
              raised := some e }
          | Except.ok newShards =>
            { state := set_shard_sync_state tSet { st1 with shards := newShards },
              events := [SyncEvent.splitCall stream_shards], raised := none }
        else
          match mergeH stream_shards st1.shards with
          | Except.error e =>
            { state := st1, events := [SyncEvent.mergeCall stream_shards],
              raised := some e }
          | Except.ok newShards =>
            { state := set_shard_sync_state tSet { st1 with shards := newShards },
              events := [SyncEvent.mergeCall stream_shards], raised := none }
  else
    { state := st, events := [], raised := none }

/-! ## Helper lemmas about the reconnect loop -/

/-- An iteration outcome that makes the reconnect loop continue: a
`start()` failure other than `StreamDoesNotExist`. -/
def nonFatalFailure (p : ℚ × Except KError Unit) : Bool :=
  match p.2 with
  | Except.error KError.streamDoesNotExist => false
  | Except.error _ => true
  | Except.ok _ => false

theorem nonFatalFailure_iff (p : ℚ × Except KError Unit) :
    nonFatalFailure p = true ↔
      ∃ e, p.2 = Except.error e ∧ e ≠ KError.streamDoesNotExist := by
  obtain ⟨t, r⟩ := p
  cases r with
  | ok u => simp [nonFatalFailure]
  | error e => cases e <;> simp [nonFatalFailure]

/-- The capped backoff recomputation is a `min`. -/
theorem reconnCapEq (d L : Nat) : (if d ≥ L then L else d) = min d L := by
  split <;> omega

/-- With no retry limit, every non-fatal failure advances the loop. -/
theorem reconnFailStep_nonFatal (eb : Option Nat) (ebl : Nat) (e : KError)
    (hne : e ≠ KError.streamDoesNotExist) (a d : Nat) :
    reconnFailStep none eb ebl e a d =
      Except.ok (a + 1, reconnNewDelay eb ebl (a + 1) d) := by
  simp [reconnFailStep, hne]

/-- With no retry limit, a run of non-fatal failures followed by a
success ends in `ok` after exactly one `start()` call per iteration. -/
theorem reconnLoop_unbounded (eb : Option Nat) (ebl : Nat) (t : ℚ) :
    ∀ (fs : List (ℚ × Except KError Unit)) (d a : Nat) (s : List Nat)
      (rt : Option ℚ) (c : Nat),
      (∀ p ∈ fs, nonFatalFailure p = true) →
      (reconnLoop none eb ebl (fs ++ [(t, Except.ok ())]) d a s rt c).outcome =
          ReconnOutcome.ok ∧
      (reconnLoop none eb ebl (fs ++ [(t, Except.ok ())]) d a s rt c).startCalls =
          c + (fs.length + 1) := by
  intro fs
  induction fs with
  | nil =>
    intro d a s rt c _
    simp [reconnLoop]
  | cons p fs ih =>
    intro d a s rt c h
    obtain ⟨e, he, hne⟩ := (nonFatalFailure_iff p).mp (h p (List.mem_cons_self _ _))
    obtain ⟨t0, r0⟩ := p
    simp only at he
    subst he
    simp only [List.cons_append, reconnLoop, reconnFailStep_nonFatal eb ebl e hne]
    have := ih (reconnNewDelay eb ebl (a + 1) d) (a + 1) (d :: s) (some t0) (c + 1)
      (fun q hq => h q (List.mem_cons_of_mem _ hq))
    refine ⟨this.1, ?_⟩
    simp only [List.append_eq] at this ⊢
    rw [this.2]
    simp only [List.length_cons]
    omega

/-- With exponential backoff base 5 and ceiling 120 and no retry limit,
the delays slept over a run of non-fatal failures follow
`min ((a + i) ^ 2 * 5) 120` from the invariant delay `min (a ^ 2 * 5) 120`. -/
theorem reconnLoop_expo_sleeps :
    ∀ (fs : List (ℚ × Except KError Unit)) (a : Nat) (s : List Nat)
      (rt : Option ℚ) (c : Nat),
      (∀ p ∈ fs, nonFatalFailure p = true) →
      (reconnLoop none (some 5) 120 fs (min (a ^ 2 * 5) 120) a s rt c).sleeps =
        s.reverse ++ (List.range fs.length).map (fun i => min ((a + i) ^ 2 * 5) 120) := by
  intro fs
  induction fs with
  | nil =>
    intro a s rt c _
    simp [reconnLoop]
  | cons p fs ih =>
    intro a s rt c h
    obtain ⟨e, he, hne⟩ := (nonFatalFailure_iff p).mp (h p (List.mem_cons_self _ _))
    obtain ⟨t0, r0⟩ := p
    simp only at he
    subst he
    simp only [reconnLoop, reconnFailStep_nonFatal (some 5) 120 e hne]
    have hd : reconnNewDelay (some 5) 120 (a + 1) (min (a ^ 2 * 5) 120) =
        min ((a + 1) ^ 2 * 5) 120 := by
      simp [reconnNewDelay, reconnCapEq]
    rw [hd, ih (a + 1) (min (a ^ 2 * 5) 120 :: s) (some t0) (c + 1)
      (fun q hq => h q (List.mem_cons_of_mem _ hq))]
    simp [List.range_succ_eq_map, List.map_map, Function.comp, List.append_assoc]
    intro i _
    have hh : a + 1 + i = a + (i + 1) := by omega
    rw [hh]

/-! ## Claims C5 and C6 -/

/-- C5: with exponential backoff enabled with base 5 and ceiling 120 (and
no retry limit cutting the loop short), the reconnect delay before attempt
`n` is `min (n ^ 2 * 5) 120` for every `n ≥ 1` — over any run of
non-fatal failures the slept delays are `5, 20, 45, 80, 120, 120, ...` and
never exceed the ceiling. -/
theorem expo_backoff_delay_sequence (fs : List (ℚ × Except KError Unit))
    (h : ∀ p ∈ fs, nonFatalFailure p = true) :
    (reconnRun none (some 5) 120 fs).sleeps =
      (List.range fs.length).map (fun n => min ((n + 1) ^ 2 * 5) 120) ∧
    ∀ d ∈ (reconnRun none (some 5) 120 fs).sleeps, d ≤ 120 := by
  have h1 : (reconnRun none (some 5) 120 fs).sleeps =
      (List.range fs.length).map (fun n => min ((n + 1) ^ 2 * 5) 120) := by
    have h0 := reconnLoop_expo_sleeps fs 1 [] none 0 h
    norm_num at h0
    rw [reconnRun, h0]
    have hf : (fun i => min ((1 + i) ^ 2 * 5) 120) =
        (fun n : Nat => min ((n + 1) ^ 2 * 5) 120) := by
      funext n
      rw [Nat.add_comm]
    rw [hf]
  refine ⟨h1, ?_⟩
  intro d hd
  rw [h1] at hd
  simp only [List.mem_map] at hd
  obtain ⟨i, _, hi⟩ := hd
  rw [← hi]
  exact Nat.min_le_right _ _

/-- Witness for C5 at a concrete six-failure run: the delays are
`5, 20, 45, 80, 120, 120`. -/
theorem expo_backoff_delay_sequence_witness :
    (reconnRun none (some 5) 120
      [(0, Except.error (KError.otherFailure "x")),
       (1, Except.error (KError.otherFailure "x")),
       (2, Except.error (KError.otherFailure "x")),
       (3, Except.error (KError.otherFailure "x")),
       (4, Except.error (KError.otherFailure "x")),
       (5, Except.error (KError.otherFailure "x"))]).sleeps =
      [5, 20, 45, 80, 120, 120] := by
  rw [(expo_backoff_delay_sequence _ (by decide)).1]
  rfl

/-- C6: with retry limit 3, three failed attempts raise
`ConnectionError` with no fourth `start()` call, whatever iterations the
environment could still provide; with no retry limit, a run of `N - 1`
failures followed by a success returns successfully after exactly `N`
attempts, for every `N`. -/
theorem retry_limit_exhaustion_and_unbounded (eb : Option Nat) (ebl : Nat)
    (t1 t2 t3 t : ℚ) (e1 e2 e3 : KError)
    (h1 : e1 ≠ KError.streamDoesNotExist) (h2 : e2 ≠ KError.streamDoesNotExist)
    (h3 : e3 ≠ KError.streamDoesNotExist)
    (rest fs : List (ℚ × Except KError Unit))
    (hfs : ∀ p ∈ fs, nonFatalFailure p = true) :
    ((reconnRun (some 3) eb ebl ((t1, Except.error e1) :: (t2, Except.error e2) ::
        (t3, Except.error e3) :: rest)).outcome =
      ReconnOutcome.err KError.connectionError ∧
     (reconnRun (some 3) eb ebl ((t1, Except.error e1) :: (t2, Except.error e2) ::
        (t3, Except.error e3) :: rest)).startCalls = 3) ∧
    ((reconnRun none eb ebl (fs ++ [(t, Except.ok ())])).outcome =
      ReconnOutcome.ok ∧
     (reconnRun none eb ebl (fs ++ [(t, Except.ok ())])).startCalls =
      fs.length + 1) := by
  constructor
  · simp [reconnRun, reconnLoop, reconnFailStep, h1, h2, h3]
  · have := reconnLoop_unbounded eb ebl t fs 5 1 [] none 0 hfs
    exact ⟨this.1, by rw [reconnRun, this.2]; omega⟩

/-- Witness for C6: three concrete network failures under retry limit 3
raise `ConnectionError` after exactly 3 attempts; with no limit, success
on the 4th attempt returns `ok` after exactly 4 attempts. -/
theorem retry_limit_exhaustion_and_unbounded_witness :
    ((reconnRun (some 3) none 120
        [(0, Except.error (KError.otherFailure "x")),
         (1, Except.error (KError.otherFailure "x")),
         (2, Except.error (KError.otherFailure "x")),
         (3, Except.ok ())]).outcome =
      ReconnOutcome.err KError.connectionError ∧
     (reconnRun (some 3) none 120
        [(0, Except.error (KError.otherFailure "x")),
         (1, Except.error (KError.otherFailure "x")),
         (2, Except.error (KError.otherFailure "x")),
         (3, Except.ok ())]).startCalls = 3) ∧
    ((reconnRun none none 120
        [(0, Except.error (KError.otherFailure "x")),
         (1, Except.error (KError.otherFailure "x")),
         (2, Except.error (KError.otherFailure "x")),
         (3, Except.ok ())]).outcome = ReconnOutcome.ok ∧
     (reconnRun none none 120
        [(0, Except.error (KError.otherFailure "x")),
         (1, Except.error (KError.otherFailure "x")),
         (2, Except.error (KError.otherFailure "x")),
         (3, Except.ok ())]).startCalls = 4) :=
  retry_limit_exhaustion_and_unbounded none 120 0 1 2 3
    (KError.otherFailure "x") (KError.otherFailure "x") (KError.otherFailure "x")
    (by decide) (by decide) (by decide) [(3, Except.ok ())]
    [(0, Except.error (KError.otherFailure "x")),
     (1, Except.error (KError.otherFailure "x")),
     (2, Except.error (KError.otherFailure "x"))] (by decide)

/-! ## Claim C4 -/

/-- If the loop is still running after the iterations `pre`, a
`StreamDoesNotExist` failure on the next iteration ends the run with that
error, after exactly one further `start()` call, and whatever iterations
could still follow are never reached. -/
theorem reconnLoop_sdne (rl : Option Int) (eb : Option Nat) (ebl : Nat)
    (t : ℚ) (rest : List (ℚ × Except KError Unit)) :
    ∀ (pre : List (ℚ × Except KError Unit)) (d a : Nat) (s : List Nat)
      (rt : Option ℚ) (c : Nat),
      (reconnLoop rl eb ebl pre d a s rt c).outcome = ReconnOutcome.incomplete →
      reconnLoop rl eb ebl
          (pre ++ (t, Except.error KError.streamDoesNotExist) :: rest) d a s rt c =
        reconnLoop rl eb ebl
          (pre ++ [(t, Except.error KError.streamDoesNotExist)]) d a s rt c ∧
      (reconnLoop rl eb ebl
          (pre ++ (t, Except.error KError.streamDoesNotExist) :: rest) d a s rt c).outcome =
        ReconnOutcome.err KError.streamDoesNotExist ∧
      (reconnLoop rl eb ebl
          (pre ++ (t, Except.error KError.streamDoesNotExist) :: rest) d a s rt c).startCalls =
        c + (pre.length + 1) := by
  intro pre
  induction pre with
  | nil =>
    intro d a s rt c _
    simp [reconnLoop, reconnFailStep]
  | cons p pre ih =>
    intro d a s rt c hinc
    obtain ⟨t0, r0⟩ := p
    cases r0 with
    | ok u =>
      simp [reconnLoop] at hinc
    | error e =>
      rcases hstep : reconnFailStep rl eb ebl e a d with e2 | ad2
      · rw [reconnLoop, hstep] at hinc
        simp at hinc
      · obtain ⟨a2, d2⟩ := ad2
        rw [reconnLoop, hstep] at hinc
        simp only [List.cons_append, reconnLoop, hstep]
        have := ih d2 a2 (d :: s) (some t0) (c + 1) hinc
        simp only [List.append_eq] at this ⊢
        refine ⟨this.1, this.2.1, ?_⟩
        rw [this.2.2]
        simp only [List.length_cons]
        omega

/-- C4: a `StreamDoesNotExist` failure during the initial startup makes
`get_conn` re-raise it with the reconnect procedure never entered; inside
the reconnect loop it ends the run at once — the run equals the run
truncated at that iteration (no further sleep, no further attempt,
whatever `rest` would have offered), raising the error after exactly
`pre.length + 1` attempts — for every retry-limit and backoff
configuration. -/
theorem sdne_terminates_retry_immediately (reconnect_timeout now : ℚ)
    (rl : Option Int) (eb : Option Nat) (ebl : Nat)
    (attempts pre rest : List (ℚ × Except KError Unit)) (t : ℚ)
    (hpre : (reconnLoop rl eb ebl pre 5 1 [] none 0).outcome =
      ReconnOutcome.incomplete) :
    get_conn_run "INITIALIZE" reconnect_timeout now
        (Except.error KError.streamDoesNotExist) rl eb ebl attempts =
      { raised := some KError.streamDoesNotExist, reconnEntered := false,
        reconn := none } ∧
    reconnRun rl eb ebl (pre ++ (t, Except.error KError.streamDoesNotExist) :: rest) =
      reconnRun rl eb ebl (pre ++ [(t, Except.error KError.streamDoesNotExist)]) ∧
    (reconnRun rl eb ebl
        (pre ++ (t, Except.error KError.streamDoesNotExist) :: rest)).outcome =
      ReconnOutcome.err KError.streamDoesNotExist ∧
    (reconnRun rl eb ebl
        (pre ++ (t, Except.error KError.streamDoesNotExist) :: rest)).startCalls =
      pre.length + 1 := by
  have h := reconnLoop_sdne rl eb ebl t rest pre 5 1 [] none 0 hpre
  refine ⟨by simp [get_conn_run], h.1, h.2.1, ?_⟩
  rw [reconnRun, h.2.2]
  omega

/-- Witness for C4: after one concrete network failure, a
`StreamDoesNotExist` failure stops the loop at the second attempt even
though more iterations were available. -/
theorem sdne_terminates_retry_immediately_witness :
    get_conn_run "INITIALIZE" 0 0 (Except.error KError.streamDoesNotExist)
        none (some 5) 120 [] =
      { raised := some KError.streamDoesNotExist, reconnEntered := false,
        reconn := none } ∧
    (reconnRun none (some 5) 120
        [(0, Except.error (KError.otherFailure "x")),
         (1, Except.error KError.streamDoesNotExist), (2, Except.ok ())]).outcome =
      ReconnOutcome.err KError.streamDoesNotExist ∧
    (reconnRun none (some 5) 120
        [(0, Except.error (KError.otherFailure "x")),
         (1, Except.error KError.streamDoesNotExist), (2, Except.ok ())]).startCalls =
      2 := by
  have h := sdne_terminates_retry_immediately 0 0 none (some 5) 120 []
    [(0, Except.error (KError.otherFailure "x"))] [(2, Except.ok ())] 1 (by decide)
  exact ⟨h.1, h.2.2.1, h.2.2.2⟩

/-! ## Claim C3 -/

/-- C3 counterexample: one reconnect iteration whose `start()` fails (a
plain network error, the loop still running) leaves `_reconnect_timeout`
changed to the clock reading `100` of that iteration, not unchanged from its
pre-loop value (`none` here, i.e. never written by the loop). -/
theorem reconn_timeout_failed_attempt_counterexample :
    (reconnRun none none 120
        [(100, Except.error (KError.otherFailure "network"))]).reconnectTimeout =
      some 100 ∧
    (reconnRun none none 120
        [(100, Except.error (KError.otherFailure "network"))]).outcome =
      ReconnOutcome.incomplete :=
  ⟨rfl, rfl⟩

/-- C3 amended: `_reconnect_timeout` is written at the start of every
reconnect-loop iteration, before the backoff sleep and the connection
attempt and regardless of the outcome `r` of the attempt: if the loop is still
running after `pre`, the run extended by one iteration at clock reading
`t` ends with `_reconnect_timeout = t` whether that attempt succeeds or
fails. -/
theorem reconn_timeout_written_every_iteration (rl : Option Int)
    (eb : Option Nat) (ebl : Nat) (t : ℚ) (r : Except KError Unit) :
    ∀ (pre : List (ℚ × Except KError Unit)) (d a : Nat) (s : List Nat)
      (rt : Option ℚ) (c : Nat),
      (reconnLoop rl eb ebl pre d a s rt c).outcome = ReconnOutcome.incomplete →
      (reconnLoop rl eb ebl (pre ++ [(t, r)]) d a s rt c).reconnectTimeout =
        some t := by
  intro pre
  induction pre with
  | nil =>
    intro d a s rt c _
    cases r with
    | ok u => rfl
    | error e =>
      rcases hstep : reconnFailStep rl eb ebl e a d with e2 | ⟨a2, d2⟩ <;>
        simp [reconnLoop, hstep]
  | cons p pre ih =>
    intro d a s rt c hinc
    obtain ⟨t0, r0⟩ := p
    cases r0 with
    | ok u => simp [reconnLoop] at hinc
    | error e =>
      rcases hstep : reconnFailStep rl eb ebl e a d with e2 | ⟨a2, d2⟩
      · rw [reconnLoop, hstep] at hinc
        simp at hinc
      · rw [reconnLoop, hstep] at hinc
        simp only [List.cons_append, reconnLoop, hstep]
        exact ih d2 a2 (d :: s) (some t0) (c + 1) hinc

/-- Witness for the amended C3: a two-iteration run whose attempts both
fail ends with `_reconnect_timeout` equal to `7`, the clock reading of the
second (failed) iteration. -/
theorem reconn_timeout_written_every_iteration_witness :
    (reconnRun none none 120
        [(3, Except.error (KError.otherFailure "x")),
         (7, Except.error (KError.otherFailure "y"))]).reconnectTimeout =
      some 7 :=
  reconn_timeout_written_every_iteration none none 120 7
    (Except.error (KError.otherFailure "y"))
    [(3, Except.error (KError.otherFailure "x"))] 5 1 [] none 0 (by decide)

/-! ## Claim C2 -/

/-- C2 counterexample: `start` with `create_stream` set and
`create_stream_shards = 0` raises the min-shard-count error, and
`get_conn` reacts to that error (and likewise to `StreamShardLimit`) by
entering the reconnect procedure, which goes on to make two further
connection attempts — not by propagating it with zero attempts. -/
theorem create_errors_retried_counterexample :
    (startRun false 0 ⟨Except.ok (), []⟩
        { create_stream := true, stream_status := "INITIALIZE",
          shards_status := "WAIT", shards := [] }).error =
      some KError.minShardCount ∧
    (get_conn_run "INITIALIZE" 0 0 (Except.error KError.minShardCount) none none 120
        [(1, Except.error KError.minShardCount),
         (2, Except.error KError.minShardCount)]).reconnEntered = true ∧
    ((get_conn_run "INITIALIZE" 0 0 (Except.error KError.minShardCount) none none 120
        [(1, Except.error KError.minShardCount),
         (2, Except.error KError.minShardCount)]).reconn.map
      ReconnResult.startCalls) = some 2 ∧
    (get_conn_run "INITIALIZE" 0 0 (Except.error KError.streamShardLimit) none none 120
        [(1, Except.error KError.streamShardLimit),
         (2, Except.error KError.streamShardLimit)]).reconnEntered = true ∧
    ((get_conn_run "INITIALIZE" 0 0 (Except.error KError.streamShardLimit) none none 120
        [(1, Except.error KError.streamShardLimit),
         (2, Except.error KError.streamShardLimit)]).reconn.map
      ReconnResult.startCalls) = some 2 :=
  ⟨rfl, rfl, rfl, rfl, rfl⟩

/-- C2 amended: only `StreamDoesNotExist` is permanent for `get_conn`.
Any other startup failure — the min-shard-count error and
`StreamShardLimit` included — makes `get_conn` enter the reconnect
procedure, where (with no retry limit) such a failure always advances the
loop to another attempt rather than being re-raised. -/
theorem non_sdne_startup_failures_enter_reconnect (e : KError)
    (he : e ≠ KError.streamDoesNotExist) (reconnect_timeout now : ℚ)
    (rl : Option Int) (eb : Option Nat) (ebl : Nat)
    (attempts : List (ℚ × Except KError Unit)) (a d : Nat) :
    get_conn_run "INITIALIZE" reconnect_timeout now (Except.error e) rl eb ebl
        attempts =
      { raised := reconnRaised (reconnRun rl eb ebl attempts),
        reconnEntered := true, reconn := some (reconnRun rl eb ebl attempts) } ∧
    reconnFailStep none eb ebl e a d =
      Except.ok (a + 1, reconnNewDelay eb ebl (a + 1) d) := by
  refine ⟨?_, reconnFailStep_nonFatal eb ebl e he a d⟩
  simp [get_conn_run, he]

/-- Witness for the amended C2 at the min-shard-count error. -/
theorem non_sdne_startup_failures_enter_reconnect_witness :
    get_conn_run "INITIALIZE" 0 0 (Except.error KError.minShardCount) none none
        120 [] =
      { raised := reconnRaised (reconnRun none none 120 []),
        reconnEntered := true, reconn := some (reconnRun none none 120 []) } ∧
    reconnFailStep none none 120 KError.minShardCount 1 5 =
      Except.ok (2, reconnNewDelay none 120 2 5) :=
  non_sdne_startup_failures_enter_reconnect KError.minShardCount (by decide)
    0 0 none none 120 [] 1 5

/-! ## Claim C8 -/

/-- C8: while the connection state is `ACTIVE` and less than 120 seconds
have passed since `_reconnect_timeout`, `get_conn` raises nothing and
enters no reconnect (the body falls through both branches, mutating no
state); once more than 120 seconds have passed, the call triggers the
reconnect procedure. -/
theorem active_cooldown_gate (reconnect_timeout now : ℚ)
    (startOutcome : Except KError Unit) (rl : Option Int) (eb : Option Nat)
    (ebl : Nat) (attempts : List (ℚ × Except KError Unit)) :
    (now - reconnect_timeout < 120 →
      get_conn_run "ACTIVE" reconnect_timeout now startOutcome rl eb ebl attempts =
        { raised := none, reconnEntered := false, reconn := none }) ∧
    (now - reconnect_timeout > 120 →
      get_conn_run "ACTIVE" reconnect_timeout now startOutcome rl eb ebl attempts =
        { raised := reconnRaised (reconnRun rl eb ebl attempts),
          reconnEntered := true,
          reconn := some (reconnRun rl eb ebl attempts) }) := by
  constructor
  · intro h
    have hnot : ¬ (now - reconnect_timeout > 120) := by linarith
    simp [get_conn_run, hnot]
  · intro h
    simp [get_conn_run, h]

/-- Witness for C8: 50 seconds into the cooldown the call is a no-op; at
200 seconds it reconnects. -/
theorem active_cooldown_gate_witness :
    (get_conn_run "ACTIVE" 0 50 (Except.ok ()) none none 120 [(1, Except.ok ())] =
      { raised := none, reconnEntered := false, reconn := none }) ∧
    (get_conn_run "ACTIVE" 0 200 (Except.ok ()) none none 120 [(1, Except.ok ())] =
      { raised := reconnRaised (reconnRun none none 120 [(1, Except.ok ())]),
        reconnEntered := true,
        reconn := some (reconnRun none none 120 [(1, Except.ok ())]) }) :=
  ⟨(active_cooldown_gate 0 50 (Except.ok ()) none none 120
      [(1, Except.ok ())]).1 (by norm_num),
   (active_cooldown_gate 0 200 (Except.ok ()) none none 120
      [(1, Except.ok ())]).2 (by norm_num)⟩

/-! ## Claim C7 -/

/-- C7: in a due resync (state `SYNCED`, refresh interval elapsed, fetched
status neither `CREATING` nor `UPDATING`): equal fetched and local shard
counts invoke neither handler; a greater fetched count invokes exactly the
split handler with the full fetched list; a smaller fetched count invokes
exactly the merge handler with the full fetched list. -/
theorem resync_handler_dispatch (tNow tSet timer : ℚ)
    (info : StreamDescription)
    (splitH mergeH : List Shard → List Shard → Except KError (List Shard))
    (st : SyncState) (hlock : st.shardsLockHeld = false)
    (hstat : st.shards_status = "SYNCED")
    (helapsed : tNow - st.shard_refresh_monotonic > timer)
    (hupd : info.streamStatus ≠ "UPDATING")
    (hcre : info.streamStatus ≠ "CREATING") :
    (info.shards.length = st.shards.length →
      (sync_shards_run tNow tSet timer (Except.ok info) splitH mergeH st).events =
        []) ∧
    (info.shards.length > st.shards.length →
      (sync_shards_run tNow tSet timer (Except.ok info) splitH mergeH st).events =
        [SyncEvent.splitCall info.shards]) ∧
    (info.shards.length < st.shards.length →
      (sync_shards_run tNow tSet timer (Except.ok info) splitH mergeH st).events =
        [SyncEvent.mergeCall info.shards]) := by
  refine ⟨?_, ?_, ?_⟩ <;> intro h
  · simp [sync_shards_run, get_stream_description_run, hstat, helapsed, hupd,
      hcre, h]
  · have hne : ¬ (info.shards.length = st.shards.length) := by omega
    simp only [sync_shards_run, get_stream_description_run, hstat, helapsed,
      hupd, hcre, h, hne]
    simp only [gt_iff_lt] at h
    simp [hne, h, hupd, hcre, helapsed]
    rcases hsp : splitH info.shards st.shards with e | ns <;> simp [hsp]
  · have hne : ¬ (info.shards.length = st.shards.length) := by omega
    have hngt : ¬ (info.shards.length > st.shards.length) := by omega
    simp [sync_shards_run, get_stream_description_run, hstat, helapsed, hupd,
      hcre, h, hne, hngt]
    rcases hmg : mergeH info.shards st.shards with e | ns <;> simp [hmg]

/-- Witness for C7 at an equal-count resync: no handler is invoked. -/
theorem resync_handler_dispatch_witness :
    (sync_shards_run 1000 1001 900 (Except.ok ⟨"ACTIVE", ["a"]⟩)
        (fun fetched _ => Except.ok fetched) (fun fetched _ => Except.ok fetched)
        { shards_status := "SYNCED", shards := ["b"],
          shard_refresh_monotonic := 0, shardsLockHeld := false }).events = [] :=
  (resync_handler_dispatch 1000 1001 900 ⟨"ACTIVE", ["a"]⟩
      (fun fetched _ => Except.ok fetched) (fun fetched _ => Except.ok fetched)
      { shards_status := "SYNCED", shards := ["b"],
        shard_refresh_monotonic := 0, shardsLockHeld := false }
      rfl rfl (by norm_num) (by decide) (by decide)).1 rfl

/-! ## Claim C9 -/

/-- C9: if a topology handler raises after the shard lock was acquired —
in the `INITIALIZE` path or in either count-changing resync path — the
exception propagates out of `sync_shards` with the shard lock still held
(the release lives only in `set_shard_sync_state`, which is never
reached), the sync state not set to `SYNCED`, the refresh timestamp not
updated, and the local shard set untouched. -/
theorem sync_handler_error_leaks_lock (tNow tSet timer : ℚ)
    (info : StreamDescription)
    (splitH mergeH : List Shard → List Shard → Except KError (List Shard))
    (st : SyncState) (e : KError) (hlock : st.shardsLockHeld = false)
    (hcase :
      (st.shards_status = "INITIALIZE" ∧
        splitH info.shards st.shards = Except.error e) ∨
      (st.shards_status = "SYNCED" ∧ tNow - st.shard_refresh_monotonic > timer ∧
        info.streamStatus ≠ "UPDATING" ∧ info.streamStatus ≠ "CREATING" ∧
        ((info.shards.length > st.shards.length ∧
            splitH info.shards st.shards = Except.error e) ∨
         (info.shards.length < st.shards.length ∧
            mergeH info.shards st.shards = Except.error e)))) :
    (sync_shards_run tNow tSet timer (Except.ok info) splitH mergeH st).raised =
      some e ∧
    (sync_shards_run tNow tSet timer (Except.ok info) splitH mergeH
        st).state.shardsLockHeld = true ∧
    (sync_shards_run tNow tSet timer (Except.ok info) splitH mergeH
        st).state.shards_status ≠ "SYNCED" ∧
    (sync_shards_run tNow tSet timer (Except.ok info) splitH mergeH
        st).state.shard_refresh_monotonic = st.shard_refresh_monotonic ∧
    (sync_shards_run tNow tSet timer (Except.ok info) splitH mergeH
        st).state.shards = st.shards := by
  rcases hcase with ⟨hstat, hsp⟩ | ⟨hstat, helapsed, hupd, hcre, hsub⟩
  · simp [sync_shards_run, get_stream_description_run, hstat, hsp]
  · rcases hsub with ⟨hgt, hsp⟩ | ⟨hlt, hmg⟩
    · have hne : ¬ (info.shards.length = st.shards.length) := by omega
      simp [sync_shards_run, get_stream_description_run, hstat, helapsed,
        hupd, hcre, hgt, hne, hsp]
    · have hne : ¬ (info.shards.length = st.shards.length) := by omega
      have hngt : ¬ (info.shards.length > st.shards.length) := by omega
      simp [sync_shards_run, get_stream_description_run, hstat, helapsed,
        hupd, hcre, hlt, hne, hngt, hmg]

/-- Witness for C9: a split handler failing during the `INITIALIZE` sync
leaves the lock held, the state unsynced and the timestamp untouched. -/
theorem sync_handler_error_leaks_lock_witness :
    (sync_shards_run 0 1 900 (Except.ok ⟨"ACTIVE", ["s1"]⟩)
        (fun _ _ => Except.error (KError.otherFailure "boom"))
        (fun fetched _ => Except.ok fetched)
        { shards_status := "INITIALIZE", shards := [],
          shard_refresh_monotonic := 0, shardsLockHeld := false }).raised =
      some (KError.otherFailure "boom") ∧
    (sync_shards_run 0 1 900 (Except.ok ⟨"ACTIVE", ["s1"]⟩)
        (fun _ _ => Except.error (KError.otherFailure "boom"))
        (fun fetched _ => Except.ok fetched)
        { shards_status := "INITIALIZE", shards := [],
          shard_refresh_monotonic := 0,
          shardsLockHeld := false }).state.shardsLockHeld = true := by
  have h := sync_handler_error_leaks_lock 0 1 900 ⟨"ACTIVE", ["s1"]⟩
    (fun _ _ => Except.error (KError.otherFailure "boom"))
    (fun fetched _ => Except.ok fetched)
    { shards_status := "INITIALIZE", shards := [],
      shard_refresh_monotonic := 0, shardsLockHeld := false }
    (KError.otherFailure "boom") rfl (Or.inl ⟨rfl, rfl⟩)
  exact ⟨h.1, h.2.1⟩

/-! ## Claim C1 -/

/-- C1 counterexample: a due resync whose fetched list `["s2"]` differs
from the local list `["s1"]` but has the same length completes (state
back to `SYNCED`, no error) with the local shard set still `["s1"]`, not
replaced by the fetched list — even with handlers that would replace it
wholesale, because no handler is invoked on equal counts. -/
theorem shard_set_replacement_counterexample :
    (sync_shards_run 1000 1001 900 (Except.ok ⟨"ACTIVE", ["s2"]⟩)
        (fun fetched _ => Except.ok fetched) (fun fetched _ => Except.ok fetched)
        { shards_status := "SYNCED", shards := ["s1"],
          shard_refresh_monotonic := 0, shardsLockHeld := false }).raised =
      none ∧
    (sync_shards_run 1000 1001 900 (Except.ok ⟨"ACTIVE", ["s2"]⟩)
        (fun fetched _ => Except.ok fetched) (fun fetched _ => Except.ok fetched)
        { shards_status := "SYNCED", shards := ["s1"],
          shard_refresh_monotonic := 0,
          shardsLockHeld := false }).state.shards_status = "SYNCED" ∧
    (sync_shards_run 1000 1001 900 (Except.ok ⟨"ACTIVE", ["s2"]⟩)
        (fun fetched _ => Except.ok fetched) (fun fetched _ => Except.ok fetched)
        { shards_status := "SYNCED", shards := ["s1"],
          shard_refresh_monotonic := 0,
          shardsLockHeld := false }).state.shards = ["s1"] ∧
    (sync_shards_run 1000 1001 900 (Except.ok ⟨"ACTIVE", ["s2"]⟩)
        (fun fetched _ => Except.ok fetched) (fun fetched _ => Except.ok fetched)
        { shards_status := "SYNCED", shards := ["s1"],
          shard_refresh_monotonic := 0,
          shardsLockHeld := false }).state.shards ≠ ["s2"] := by
  norm_num [sync_shards_run, get_stream_description_run, set_shard_sync_state]
  decide

/-- C1 amended: `sync_shards` itself never assigns the local shard set;
after a completed sync the state is back to `SYNCED` with the lock
released and the refresh timestamp recorded, and the local shard set
equals whatever the invoked handler returned (the fetched list only if
the handler replaces it) — while an equal-count resync invokes no handler
and leaves the local shard set unchanged, even when the fetched list
differs in content. -/
theorem sync_shard_set_after_sync (tNow tSet timer : ℚ)
    (info : StreamDescription)
    (splitH mergeH : List Shard → List Shard → Except KError (List Shard))
    (st : SyncState) (hlock : st.shardsLockHeld = false) :
    (st.shards_status = "INITIALIZE" →
      ∀ ns, splitH info.shards st.shards = Except.ok ns →
      sync_shards_run tNow tSet timer (Except.ok info) splitH mergeH st =
        { state := { shards_status := "SYNCED", shards := ns,
                     shard_refresh_monotonic := tSet, shardsLockHeld := false },
          events := [SyncEvent.splitCall info.shards], raised := none }) ∧
    (st.shards_status = "SYNCED" → tNow - st.shard_refresh_monotonic > timer →
     info.streamStatus ≠ "UPDATING" → info.streamStatus ≠ "CREATING" →
      ((info.shards.length = st.shards.length →
        sync_shards_run tNow tSet timer (Except.ok info) splitH mergeH st =
          { state := { shards_status := "SYNCED", shards := st.shards,
                       shard_refresh_monotonic := tSet, shardsLockHeld := false },
            events := [], raised := none }) ∧
       (∀ ns, info.shards.length > st.shards.length →
        splitH info.shards st.shards = Except.ok ns →
        sync_shards_run tNow tSet timer (Except.ok info) splitH mergeH st =
          { state := { shards_status := "SYNCED", shards := ns,
                       shard_refresh_monotonic := tSet, shardsLockHeld := false },
            events := [SyncEvent.splitCall info.shards], raised := none }) ∧
       (∀ ns, info.shards.length < st.shards.length →
        mergeH info.shards st.shards = Except.ok ns →
        sync_shards_run tNow tSet timer (Except.ok info) splitH mergeH st =
          { state := { shards_status := "SYNCED", shards := ns,
                       shard_refresh_monotonic := tSet, shardsLockHeld := false },
            events := [SyncEvent.mergeCall info.shards], raised := none }))) := by
  constructor
  · intro hstat ns hsp
    simp [sync_shards_run, get_stream_description_run, set_shard_sync_state,
      hstat, hsp]
  · intro hstat helapsed hupd hcre
    refine ⟨?_, ?_, ?_⟩
    · intro h
      simp [sync_shards_run, get_stream_description_run, set_shard_sync_state,
        hstat, helapsed, hupd, hcre, h]
    · intro ns h hsp
      have hne : ¬ (info.shards.length = st.shards.length) := by omega
      simp [sync_shards_run, get_stream_description_run, set_shard_sync_state,
        hstat, helapsed, hupd, hcre, h, hne, hsp]
    · intro ns h hmg
      have hne : ¬ (info.shards.length = st.shards.length) := by omega
      have hngt : ¬ (info.shards.length > st.shards.length) := by omega
      simp [sync_shards_run, get_stream_description_run, set_shard_sync_state,
        hstat, helapsed, hupd, hcre, h, hne, hngt, hmg]

/-- Witness for the amended C1 at an equal-count resync with differing
content: the local shard set stays `["b"]`. -/
theorem sync_shard_set_after_sync_witness :
    sync_shards_run 1000 1001 900 (Except.ok ⟨"ACTIVE", ["a"]⟩)
        (fun fetched _ => Except.ok fetched) (fun fetched _ => Except.ok fetched)
        { shards_status := "SYNCED", shards := ["b"],
          shard_refresh_monotonic := 0, shardsLockHeld := false } =
      { state := { shards_status := "SYNCED", shards := ["b"],
                   shard_refresh_monotonic := 1001, shardsLockHeld := false },
        events := [], raised := none } :=
  (((sync_shard_set_after_sync 1000 1001 900 ⟨"ACTIVE", ["a"]⟩
      (fun fetched _ => Except.ok fetched) (fun fetched _ => Except.ok fetched)
      { shards_status := "SYNCED", shards := ["b"],
        shard_refresh_monotonic := 0, shardsLockHeld := false } rfl).2
    rfl (by norm_num) (by decide) (by decide)).1) rfl

/-! ## Claim C10 -/

/-- C10: the `skip_describe_stream` flag changes nothing in the startup
sequence but the debug log line: for every configuration, environment and
starting state, `start` with the flag set produces the same final fields
and the same raised error as with the flag clear. -/
theorem skip_describe_stream_no_effect (create_stream_shards : Int)
    (env : StartEnv) (st : StartState) :
    (startRun true create_stream_shards env st).state =
      (startRun false create_stream_shards env st).state ∧
    (startRun true create_stream_shards env st).error =
      (startRun false create_stream_shards env st).error := by
  unfold startRun
  cases hc : st.create_stream with
  | false => simp [hc, startDescribePhase]
  | true =>
    rcases hcr : create_stream_run create_stream_shards true env.createApi with
      e | u <;> simp [hc, hcr, startDescribePhase]

end Kinesis
